import Mathlib

/-!
Shallow embedding of the route handlers of `src/main.py` (a FastAPI tutorial
application) together with the parts of the request-validation and dispatch
contract that the specification describes.

Conventions of the embedding:
* Python values that flow through the handlers are modelled by the inductive
  type `PyVal`; Python dicts become association lists `PyDict` whose update
  follows Python insertion-order semantics (existing key updated in place,
  new key appended).
* Python `float` fields (`price`, `tax`) are modelled as `ℚ`: the claims only
  involve exact addition and the zero test of truthiness, no rounding.
* Handlers raising `HTTPException` or hitting a runtime error are modelled
  with `Except`.
* Code that lives in the web framework rather than in `src/main.py`
  (parameter validation mechanics, boolean coercion, route dispatch) is
  modelled from the specification; each such definition carries a doc
  comment starting with `Modelled from the spec:`.
-/

set_option autoImplicit false

namespace Tutorial

/-- Python runtime values, as far as the handlers of `src/main.py` use them. -/
inductive PyVal where
  | none : PyVal
  | bool : Bool → PyVal
  | int : Int → PyVal
  | num : ℚ → PyVal
  | str : String → PyVal
  | list : List PyVal → PyVal
  | dict : List (String × PyVal) → PyVal

mutual

/-- Python `==` between runtime values. Numbers compare across `bool`, `int`
and `float` (`True == 1`, `0 == 0.0`); values of unrelated types compare
unequal; lists compare elementwise and dicts entrywise in insertion order
(no dict-vs-dict comparison occurs in the embedded code: the only `==` the
handlers trigger is int-vs-dict, inside `item_id in fake_items_db`). -/
def pyEq : PyVal → PyVal → Bool
  | .none, .none => true
  | .bool a, .bool b => a == b
  | .bool a, .int b => (if a then (1 : Int) else 0) == b
  | .int a, .bool b => a == (if b then (1 : Int) else 0)
  | .bool a, .num b => (if a then (1 : ℚ) else 0) == b
  | .num a, .bool b => a == (if b then (1 : ℚ) else 0)
  | .int a, .int b => a == b
  | .int a, .num b => (a : ℚ) == b
  | .num a, .int b => a == (b : ℚ)
  | .num a, .num b => a == b
  | .str a, .str b => a == b
  | .list a, .list b => pyEqList a b
  | .dict a, .dict b => pyEqDict a b
  | _, _ => false

/-- Elementwise `pyEq` on lists of values. -/
def pyEqList : List PyVal → List PyVal → Bool
  | [], [] => true
  | x :: xs, y :: ys => pyEq x y && pyEqList xs ys
  | _, _ => false

/-- Entrywise `pyEq` on dict entries. -/
def pyEqDict : List (String × PyVal) → List (String × PyVal) → Bool
  | [], [] => true
  | (k1, v1) :: xs, (k2, v2) :: ys => k1 == k2 && pyEq v1 v2 && pyEqDict xs ys
  | _, _ => false

end

/-- Python `x in l` for a list `l`: membership via `==` on the elements. -/
def pyListContains (x : PyVal) (l : List PyVal) : Bool :=
  l.any (fun e => pyEq x e)

/-- Python dicts, keyed by strings as in every dict built in `src/main.py`. -/
abbrev PyDict := List (String × PyVal)

/-- `d[k]` lookup, `none` when the key is absent. -/
def dictGet? (d : PyDict) (k : String) : Option PyVal :=
  (d.find? (fun p => p.1 == k)).map (fun p => p.2)

/-- `d.update({k: v})` / `d[k] = v`: replace the value in place when the key
exists, append the pair otherwise (Python insertion-order semantics). -/
def dictSet (d : PyDict) (k : String) (v : PyVal) : PyDict :=
  if d.any (fun p => p.1 == k) then
    d.map (fun p => if p.1 == k then (k, v) else p)
  else
    d ++ [(k, v)]

/-- `fastapi.HTTPException` and validation rejections, reduced to the status
code and detail that reach the client. -/
structure HTTPError where
  status : Nat
  detail : String
deriving DecidableEq

/-- Python runtime errors that a handler body can raise. -/
inductive PyError where
  | typeError (msg : String)
  | indexError (msg : String)
deriving DecidableEq

/-- The `ModelName(str, Enum)` of `src/main.py` lines 11-14. -/
inductive ModelName where
  | alexnet
  | resnet
  | lenet
deriving DecidableEq

/-- The string value of each `ModelName` member. -/
def ModelName.value : ModelName → String
  | .alexnet => "alexnet"
  | .resnet => "resnet"
  | .lenet => "lenet"

/-- Path-parameter validation for `ModelName` (the enum restricts the path
parameter; values outside it are rejected before the handler runs). -/
def parseModelName (s : String) : Option ModelName :=
  if s = "alexnet" then some .alexnet
  else if s = "resnet" then some .resnet
  else if s = "lenet" then some .lenet
  else none

/-- The pydantic model `Item` (lines 48-63). `float` fields are modelled
as `ℚ`. -/
structure Item where
  name : String
  description : Option String := Option.none
  price : ℚ
  tax : Option ℚ := Option.none
deriving DecidableEq

/-- `item.dict()` / `jsonable_encoder(item)`: all declared fields, optional
ones rendered as `None` when absent. -/
def Item.toDict (i : Item) : PyDict :=
  [("name", .str i.name),
   ("description", match i.description with
     | some d => .str d
     | Option.none => .none),
   ("price", .num i.price),
   ("tax", match i.tax with
     | some t => .num t
     | Option.none => .none)]

/-- The pydantic model `User` (lines 71-73). -/
structure User where
  username : String
  full_name : Option String := Option.none
deriving DecidableEq

/-- `jsonable_encoder(user)`: all declared fields. -/
def User.toDict (u : User) : PyDict :=
  [("username", .str u.username),
   ("full_name", match u.full_name with
     | some f => .str f
     | Option.none => .none)]

/-- `fake_items_db` (lines 40-44): a Python *list* of three dicts. -/
def fake_items_db : List PyVal :=
  [.dict [("item_id", .int 0), ("item_name", .str "Fish")],
   .dict [("item_id", .int 1), ("item_name", .str "Bear")],
   .dict [("item_id", .int 2), ("item_name", .str "Bunny")]]

/-- Python `l[idx] = v` on a list: an `int` index assigns in range (negative
indices count from the end, out-of-range raises `IndexError`); any
non-integer index raises `TypeError`. -/
def pyListSet (l : List PyVal) (idx : PyVal) (v : PyVal) :
    Except PyError (List PyVal) :=
  match idx with
  | .int i =>
    let n : Int := l.length
    let j : Int := if i < 0 then i + n else i
    if 0 ≤ j ∧ j < n then .ok (l.set j.toNat v)
    else .error (.indexError "list assignment index out of range")
  | _ => .error (.typeError "list indices must be integers or slices, not str")

/-- `GET /items/` handler `read_items` (lines 111-113): returns the fixed
one-element list `[{"name": "Katana"}]`. -/
def read_items : PyVal :=
  .list [.dict [("name", .str "Katana")]]

/-- `POST /items/` handler `create_items` (lines 115-127): starts from
`item.dict()` and, when `if item.tax:` is truthy (Python truthiness: `None`
and `0.0` are falsy), attaches `price_with_tax = price + tax`. -/
def create_items (item : Item) : PyDict :=
  let item_dict := Item.toDict item
  match item.tax with
  | some t =>
    if t ≠ 0 then
      dictSet item_dict "price_with_tax" (.num (item.price + t))
    else item_dict
  | Option.none => item_dict

/-- `POST /items/` handler `create_an_item` (lines 130-144): echoes the item,
serialized through `response_model=Item`. -/
def create_an_item (item : Item) : Item := item

/-- `POST /items_return_type/` handler `create_item` (lines 152-154). -/
def create_item_rt (item : Item) : Item := item

/-- `GET /items_return_type/` handler `read_items` (lines 157-162). -/
def read_items_rt : List Item :=
  [{ name := "Portal Gun", price := 42 },
   { name := "Plumbus", price := 32 }]

/-- `PUT /items/{id}` handler `update_item_json` (lines 164-167): encodes the
item with `jsonable_encoder` and executes `fake_items_db[id] = ...`, with
`id : str` and the store a list. Returns the resulting store. -/
def update_item_json (id : String) (item : Item) (db : List PyVal) :
    Except PyError (List PyVal) :=
  let json_compatible_item_data := PyVal.dict (Item.toDict item)
  pyListSet db (.str id) json_compatible_item_data

/-- `PUT /items/{item_id}` handler `update_item` (lines 169-180): combines
`item_id`, `item`, `user` and `importance` into one mapping, attaching `q`
when truthy. -/
def update_item (item_id : Int) (item : Item) (user : User)
    (importance : Int) (q : Option String) : PyDict :=
  let results : PyDict :=
    [("item_id", .int item_id),
     ("item", .dict (Item.toDict item)),
     ("user", .dict (User.toDict user)),
     ("importance", .int importance)]
  match q with
  | some s => if s ≠ "" then dictSet results "q" (.str s) else results
  | Option.none => results

/-- Modelled from the spec: the framework rejects a request whose body fails a
declared constraint before the handler runs ("a request failing schema
constraints ... must be rejected before the handler executes"); the
constraint itself, `importance: Annotated[int, Body(gt=0)]`, is declared in
`src/main.py` line 174. -/
def update_item_endpoint (item_id : Int) (item : Item) (user : User)
    (importance : Int) (q : Option String) : Except HTTPError PyDict :=
  if 0 < importance then
    .ok (update_item item_id item user importance q)
  else
    .error ⟨422, "Input should be greater than 0"⟩

/-- `GET /` handler `root` (lines 200-202). -/
def root : PyDict := [("message", .str "hello World")]

/-- `GET /items/` handler `read_item` (lines 205-213): fixed two-entry items
list, attaching `q` when truthy. -/
def read_item_q (q : Option String) : PyDict :=
  let results : PyDict :=
    [("items", .list [.dict [("item_id", .str "Foo")],
                      .dict [("item_id", .str "Bar")]])]
  match q with
  | some s => if s ≠ "" then dictSet results "q" (.str s) else results
  | Option.none => results

/-- Modelled from the spec: the framework enforces the declared constraints of
`q: Annotated[Union[str, None], Query(max_length=50, min_length=3)] = ...`
(line 207) before the handler runs — the `...` default marks the parameter
required, and a supplied string must have length between 3 and 50. -/
def read_item_q_endpoint (q : Option String) : Except HTTPError PyDict :=
  match q with
  | some s =>
    if 3 ≤ s.length ∧ s.length ≤ 50 then .ok (read_item_q (some s))
    else .error ⟨422, "String should have at least 3 characters"⟩
  | Option.none => .error ⟨422, "Field required"⟩

/-- `GET /itemlist/` handler `read_item_list` (lines 216-221): returns
`{"q": q}` with `q` as validated (default `["default1", "default2"]`). -/
def read_item_list (q : Option (List String)) : PyDict :=
  [("q", match q with
    | some xs => .list (xs.map .str)
    | Option.none => .none)]

/-- `GET /itemtitle/` handler `read_items` (lines 227-242): fixed two-entry
items list, attaching `q` when truthy. -/
def read_items_title (q : Option String) : PyDict :=
  let results : PyDict :=
    [("items", .list [.dict [("item_id", .str "Foo")],
                      .dict [("item_id", .str "Bar")]])]
  match q with
  | some s => if s ≠ "" then dictSet results "q" (.str s) else results
  | Option.none => results

/-- The description text the `short` branch attaches (lines 258-262 and
274-278). -/
def shortDescription : String :=
  "short is boolean and accepts \x27?short=1\x27, True, true, On, on, Yes, yes as True and short=0, False, false, Off, off, No, no as False"

/-- `GET /items/{item_id}` handler `read_item` (lines 245-263): raises 404
when `item_id not in fake_items_db` — a Python membership test of the `int`
against the elements of the list `db` — and otherwise shapes
`{"item_id": ...}` with `q` and the description text. -/
def read_item (db : List PyVal) (item_id : Int) (q : Option String)
    (short : Bool) : Except HTTPError PyDict :=
  if ¬ pyListContains (.int item_id) db then
    .error ⟨404, "Item not found"⟩
  else
    let item : PyDict := [("item_id", .int item_id)]
    let item := match q with
      | some s => if s ≠ "" then dictSet item "q" (.str s) else item
      | Option.none => item
    let item := if ¬ short then dictSet item "description" (.str shortDescription)
      else item
    .ok item

/-- `GET /users/{user_id}/items/{item_id}` handler `read_user_item`
(lines 266-279). -/
def read_user_item (user_id : Int) (item_id : String) (q : Option String)
    (short : Bool) : PyDict :=
  let item : PyDict := [("item_id", .str item_id), ("owner_id", .int user_id)]
  let item := match q with
    | some s => if s ≠ "" then dictSet item "q" (.str s) else item
    | Option.none => item
  let item := if ¬ short then dictSet item "description" (.str shortDescription)
    else item
  item

/-- `GET /models/{model_name}` handler `get_model` (lines 282-291): matches
`alexnet` first, then `lenet` by value, then the remaining case. -/
def get_model (model_name : ModelName) : PyDict :=
  if model_name = .alexnet then
    [("model_name", .str model_name.value), ("message", .str "Deep Learning FTW!")]
  else if model_name.value = "lenet" then
    [("model_name", .str model_name.value), ("message", .str "LeCNN all the images")]
  else
    [("model_name", .str model_name.value), ("message", .str "Have some residuals")]

/-- Modelled from the spec: the boolean coercion the framework applies to the
`short` query parameter — "accepts case-insensitive
`{"1","true","on","yes"}` → true, `{"0","false","off","no"}` → false; any
other value is a validation error". The handler docstrings in `read_item`
and `read_user_item` document the same sets; the coercion code itself lives
in the validation library, not in `src/`. -/
def parseShortBool (s : String) : Option Bool :=
  if s.toLower = "1" ∨ s.toLower = "true" ∨ s.toLower = "on" ∨ s.toLower = "yes" then
    some true
  else if s.toLower = "0" ∨ s.toLower = "false" ∨ s.toLower = "off" ∨ s.toLower = "no" then
    some false
  else
    Option.none

/-- One segment of a path template: a literal, or a `{param}` placeholder. -/
inductive Seg where
  | lit (s : String)
  | param
deriving DecidableEq

/-- HTTP methods used by `src/main.py`. -/
inductive Method where
  | GET
  | POST
  | PUT
deriving DecidableEq

/-- Identifiers for the handlers of `src/main.py`, disambiguated where the
source reuses a Python function name (`read_items`, `read_item`,
`create_item`). -/
inductive HandlerId where
  | read_items
  | create_items
  | create_an_item
  | create_item_rt
  | read_items_rt
  | update_item_json
  | update_item
  | root
  | read_item_q
  | read_item_list
  | read_items_title
  | read_item
  | read_user_item
  | get_model
deriving DecidableEq

/-- A registered route: method, path template, handler. -/
structure Route where
  method : Method
  template : List Seg
  handler : HandlerId
deriving DecidableEq

/-- The route table of `src/main.py`, in decorator registration order.
Templates are the path split on `/` with the leading empty segment dropped,
so the trailing slash of `/items/` is the empty literal segment. -/
def routeTable : List Route :=
  [⟨.GET, [.lit "items", .lit ""], .read_items⟩,
   ⟨.POST, [.lit "items", .lit ""], .create_items⟩,
   ⟨.POST, [.lit "items", .lit ""], .create_an_item⟩,
   ⟨.POST, [.lit "items_return_type", .lit ""], .create_item_rt⟩,
   ⟨.GET, [.lit "items_return_type", .lit ""], .read_items_rt⟩,
   ⟨.PUT, [.lit "items", .param], .update_item_json⟩,
   ⟨.PUT, [.lit "items", .param], .update_item⟩,
   ⟨.GET, [.lit ""], .root⟩,
   ⟨.GET, [.lit "items", .lit ""], .read_item_q⟩,
   ⟨.GET, [.lit "itemlist", .lit ""], .read_item_list⟩,
   ⟨.GET, [.lit "itemtitle", .lit ""], .read_items_title⟩,
   ⟨.GET, [.lit "items", .param], .read_item⟩,
   ⟨.GET, [.lit "users", .param, .lit "items", .param], .read_user_item⟩,
   ⟨.GET, [.lit "models", .param], .get_model⟩]

/-- A template segment matches a concrete path segment: literals match
exactly; a `{param}` placeholder matches any non-empty segment. -/
def matchSeg : Seg → String → Bool
  | .lit s, x => s == x
  | .param, x => x ≠ ""

/-- A template matches a concrete path (as a list of segments). -/
def matchesTemplate (t : List Seg) (p : List String) : Bool :=
  t.length == p.length && (List.zip t p).all (fun sp => matchSeg sp.1 sp.2)

/-- Modelled from the spec: route dispatch is performed by the web framework,
whose code is not part of `src/`; per the spec, "the last-registered handler
for an identical template wins at dispatch time", so dispatch selects the
last route of the table whose method and template match the request. -/
def dispatch (m : Method) (path : List String) : Option HandlerId :=
  (routeTable.filter (fun r => r.method == m && matchesTemplate r.template path)).getLast?.map
    (fun r => r.handler)

/-- A handler invocation with its validated arguments, one constructor per
handler of `src/main.py`. -/
inductive HandlerCall where
  | read_items
  | create_items (item : Item)
  | create_an_item (item : Item)
  | create_item_rt (item : Item)
  | read_items_rt
  | update_item_json (id : String) (item : Item)
  | update_item (item_id : Int) (item : Item) (user : User)
      (importance : Int) (q : Option String)
  | root
  | read_item_q (q : Option String)
  | read_item_list (q : Option (List String))
  | read_items_title (q : Option String)
  | read_item (item_id : Int) (q : Option String) (short : Bool)
  | read_user_item (user_id : Int) (item_id : String) (q : Option String)
      (short : Bool)
  | get_model (model_name : ModelName)

/-- Outcome of running one handler. -/
inductive HandlerResult where
  | ok (v : PyVal)
  | httpError (e : HTTPError)
  | pyError (e : PyError)

/-- Serialization of an `Item` response. -/
def encodeItem (i : Item) : PyVal := .dict (Item.toDict i)

/-- Run one handler against the shared store `db`, returning the store after
the call together with the handler's result. Only `update_item_json`
(line 167) contains an assignment to `fake_items_db`; every other handler
body passes the store through untouched, and `read_item` (line 252) only
reads it. -/
def runHandler (db : List PyVal) (c : HandlerCall) :
    List PyVal × HandlerResult :=
  match c with
  | .read_items => (db, .ok read_items)
  | .create_items item => (db, .ok (.dict (create_items item)))
  | .create_an_item item => (db, .ok (encodeItem (create_an_item item)))
  | .create_item_rt item => (db, .ok (encodeItem (create_item_rt item)))
  | .read_items_rt => (db, .ok (.list (read_items_rt.map encodeItem)))
  | .update_item_json id item =>
    match update_item_json id item db with
    | .ok db' => (db', .ok .none)
    | .error e => (db, .pyError e)
  | .update_item item_id item user importance q =>
    (db, .ok (.dict (update_item item_id item user importance q)))
  | .root => (db, .ok (.dict root))
  | .read_item_q q => (db, .ok (.dict (read_item_q q)))
  | .read_item_list q => (db, .ok (.dict (read_item_list q)))
  | .read_items_title q => (db, .ok (.dict (read_items_title q)))
  | .read_item item_id q short =>
    match read_item db item_id q short with
    | .ok d => (db, .ok (.dict d))
    | .error e => (db, .httpError e)
  | .read_user_item user_id item_id q short =>
    (db, .ok (.dict (read_user_item user_id item_id q short)))
  | .get_model model_name => (db, .ok (.dict (get_model model_name)))

/-! Theorems. -/

/-- The lowercase true-set and false-set of the boolean coercion are
disjoint. -/
theorem trueSetFalseSetDisjoint :
    ∀ x : String, (x = "1" ∨ x = "true" ∨ x = "on" ∨ x = "yes") →
      ¬(x = "0" ∨ x = "false" ∨ x = "off" ∨ x = "no") := by
  intro x hA hB
  rcases hA with h | h | h | h <;> rcases hB with g | g | g | g <;>
    rw [h] at g <;> exact absurd g (by decide)

/-- Claim C1: the claim says `GET /items/{item_id}` returns 404 exactly when
`item_id` is not a key of the store seeded with keys 0, 1, 2, and otherwise
returns the item mapping. The code instead raises 404 for every integer
`item_id`, the seeded 0, 1, 2 included: `fake_items_db` is a Python list of
dicts, so `item_id not in fake_items_db` compares the int against dict
elements and the membership never holds. Evaluated here at the failing
input `item_id = 0` and, generally, at every `item_id`. -/
theorem read_item_404_for_every_id :
    read_item fake_items_db 0 Option.none false = .error ⟨404, "Item not found"⟩ ∧
    ∀ (item_id : Int) (q : Option String) (short : Bool),
      read_item fake_items_db item_id q short = .error ⟨404, "Item not found"⟩ := by
  constructor
  · rfl
  · intro item_id q short
    simp [read_item, pyListContains, fake_items_db, pyEq]

/-- Claim C2: for each method-and-template key registered more than once
(the two `GET /items/`, the two `POST /items/`, and the
`PUT /items/{id}` / `PUT /items/{item_id}` pair), exactly two routes of the
table match, and dispatch (modelled from the spec as last-registered-wins)
invokes the later one: `read_item` of line 205, `create_an_item`,
`update_item`. -/
theorem dispatch_last_registered_wins :
    dispatch .GET ["items", ""] = some .read_item_q ∧
    dispatch .POST ["items", ""] = some .create_an_item ∧
    (∀ s : String, s ≠ "" → dispatch .PUT ["items", s] = some .update_item) ∧
    (routeTable.filter
      (fun r => r.method == .GET && matchesTemplate r.template ["items", ""])).map
        (fun r => r.handler) = [.read_items, .read_item_q] ∧
    (routeTable.filter
      (fun r => r.method == .POST && matchesTemplate r.template ["items", ""])).map
        (fun r => r.handler) = [.create_items, .create_an_item] ∧
    (∀ s : String, s ≠ "" →
      (routeTable.filter
        (fun r => r.method == .PUT && matchesTemplate r.template ["items", s])).map
          (fun r => r.handler) = [.update_item_json, .update_item]) := by
  refine ⟨rfl, rfl, ?_, rfl, rfl, ?_⟩ <;>
    intro s hs <;>
      simp [dispatch, routeTable, matchesTemplate, matchSeg, hs]

/-- Witness for C2 at the concrete path `/items/5`. -/
theorem dispatch_last_registered_wins_witness :
    dispatch .PUT ["items", "5"] = some .update_item :=
  dispatch_last_registered_wins.2.2.1 "5" (by decide)

/-- Claim C3 counterexample: the payload
`{"name": "Foo", "price": 35, "tax": 0}` has `tax` present, yet the
response of `create_items` carries no `price_with_tax`: the handler guards
the field with the truthiness test `if item.tax:`, and `0.0` is falsy. -/
theorem create_items_tax_present_zero_cex :
    (Item.mk "Foo" Option.none 35 (some 0)).tax.isSome = true ∧
    dictGet? (create_items (Item.mk "Foo" Option.none 35 (some 0)))
      "price_with_tax" = Option.none :=
  ⟨rfl, rfl⟩

/-- Claim C3 (amended): the `POST /items/` response is the item's fields as a
mapping, extended with `price_with_tax = price + tax` exactly when `tax` is
present and nonzero; when `tax` is absent — or present but equal to 0, as
the truthiness test treats it like absent — the field is omitted. -/
theorem create_items_price_with_tax_spec :
    ∀ item : Item,
      create_items item =
        (match item.tax with
         | some t =>
           if t ≠ 0 then
             Item.toDict item ++ [("price_with_tax", .num (item.price + t))]
           else Item.toDict item
         | Option.none => Item.toDict item) := by
  intro item
  cases h : item.tax with
  | none => simp [create_items, h]
  | some t =>
    by_cases ht : t = 0 <;> simp [create_items, h, ht, dictSet, Item.toDict]

/-- Claim C4: a `PUT /items/{item_id}` request with `importance = 0` is
rejected by validation (`Body(gt=0)`) before the handler runs, and with any
`importance > 0` the call succeeds, the response echoing `item_id`, `item`,
`user`, `importance`. -/
theorem update_item_importance_contract :
    (∀ (item_id : Int) (item : Item) (user : User) (q : Option String),
      update_item_endpoint item_id item user 0 q =
        .error ⟨422, "Input should be greater than 0"⟩) ∧
    (∀ (item_id : Int) (item : Item) (user : User) (q : Option String)
      (importance : Int), 0 < importance →
      ∃ d, update_item_endpoint item_id item user importance q = .ok d ∧
        dictGet? d "item_id" = some (.int item_id) ∧
        dictGet? d "item" = some (.dict (Item.toDict item)) ∧
        dictGet? d "user" = some (.dict (User.toDict user)) ∧
        dictGet? d "importance" = some (.int importance)) := by
  constructor
  · intro item_id item user q
    simp [update_item_endpoint]
  · intro item_id item user q importance h
    refine ⟨update_item item_id item user importance q, ?_, ?_, ?_, ?_, ?_⟩
    · simp [update_item_endpoint, h]
    all_goals
      cases q with
      | none => rfl
      | some s =>
        by_cases hs : s = "" <;> simp [update_item, dictGet?, dictSet, hs]

/-- Witness for C4: `importance = 1` succeeds on a concrete request. -/
theorem update_item_importance_contract_witness :
    ∃ d, update_item_endpoint 3 (Item.mk "Foo" (some "The pretender") 42 (some 3))
        (User.mk "dave" (some "Dave Grohl")) 1 Option.none = .ok d ∧
      dictGet? d "item_id" = some (.int 3) ∧
      dictGet? d "item" =
        some (.dict (Item.toDict (Item.mk "Foo" (some "The pretender") 42 (some 3)))) ∧
      dictGet? d "user" =
        some (.dict (User.toDict (User.mk "dave" (some "Dave Grohl")))) ∧
      dictGet? d "importance" = some (.int 1) :=
  update_item_importance_contract.2 3
    (Item.mk "Foo" (some "The pretender") 42 (some 3))
    (User.mk "dave" (some "Dave Grohl")) Option.none 1 (by decide)

/-- Claim C5: on `GET /items/` (handled, after the duplicate registration, by
the line-205 `read_item`), a supplied `q` of length 2 fails the
`min_length=3` validation before the handler runs, and a `q` of length 3
succeeds, the handler attaching `q` to its fixed items result. -/
theorem read_item_q_length_contract :
    (∀ q : String, q.length = 2 →
      read_item_q_endpoint (some q) =
        .error ⟨422, "String should have at least 3 characters"⟩) ∧
    (∀ q : String, q.length = 3 →
      read_item_q_endpoint (some q) =
        .ok [("items", .list [.dict [("item_id", .str "Foo")],
                              .dict [("item_id", .str "Bar")]]),
             ("q", .str q)]) := by
  constructor
  · intro q h
    simp [read_item_q_endpoint, h]
  · intro q h
    have hq : q ≠ "" := by intro e; rw [e] at h; exact absurd h (by decide)
    simp [read_item_q_endpoint, read_item_q, dictSet, h, hq]

/-- Witness for C5 at `q = "ab"` and `q = "abc"`. -/
theorem read_item_q_length_contract_witness :
    read_item_q_endpoint (some "ab") =
      .error ⟨422, "String should have at least 3 characters"⟩ ∧
    read_item_q_endpoint (some "abc") =
      .ok [("items", .list [.dict [("item_id", .str "Foo")],
                            .dict [("item_id", .str "Bar")]]),
           ("q", .str "abc")] :=
  ⟨read_item_q_length_contract.1 "ab" rfl,
   read_item_q_length_contract.2 "abc" rfl⟩

/-- Claim C6 counterexample: at the concrete path value `id = "5"` the
handler does not complete: the write `fake_items_db[id] = ...` hits a list
with a string index and raises `TypeError`. -/
theorem update_item_json_typeerror_cex :
    update_item_json "5" (Item.mk "Foo" Option.none 35 (some (16 / 5)))
      fake_items_db =
      .error (.typeError "list indices must be integers or slices, not str") :=
  rfl

/-- Claim C6 (amended): for every path string `id`, every item and every
state of the store, `update_item_json` encodes the item but the write
`fake_items_db[id] = ...` raises `TypeError` — the store is a list and `id`
a string — so the handler never completes and never changes the store. -/
theorem update_item_json_always_typeerror :
    ∀ (id : String) (item : Item) (db : List PyVal),
      update_item_json id item db =
        .error (.typeError "list indices must be integers or slices, not str") := by
  intro id item db
  rfl

/-- Claim C7: `get_model` answers `alexnet` with "Deep Learning FTW!",
`lenet` with "LeCNN all the images" and `resnet` with "Have some
residuals" (matching `alexnet` first, then `lenet`, then the remaining
case), every enum value parses to its member, and every string outside the
enum is rejected by validation. -/
theorem get_model_contract :
    get_model .alexnet =
      [("model_name", .str "alexnet"), ("message", .str "Deep Learning FTW!")] ∧
    get_model .lenet =
      [("model_name", .str "lenet"), ("message", .str "LeCNN all the images")] ∧
    get_model .resnet =
      [("model_name", .str "resnet"), ("message", .str "Have some residuals")] ∧
    (∀ m : ModelName, parseModelName m.value = some m) ∧
    (∀ s : String, s ≠ "alexnet" → s ≠ "resnet" → s ≠ "lenet" →
      parseModelName s = Option.none) := by
  refine ⟨rfl, rfl, rfl, ?_, ?_⟩
  · intro m
    cases m <;> rfl
  · intro s h1 h2 h3
    simp [parseModelName, h1, h2, h3]

/-- Witness for C7 at the out-of-enum value "vgg". -/
theorem get_model_contract_witness : parseModelName "vgg" = Option.none :=
  get_model_contract.2.2.2.2 "vgg" (by decide) (by decide) (by decide)

/-- Claim C8: every handler other than `update_item_json` leaves the shared
store `fake_items_db` unchanged on any validated input — each is a pure
function of its arguments, `read_item` only reading the store. -/
theorem handlers_pure_except_put_id :
    ∀ (db : List PyVal) (c : HandlerCall),
      (∀ (id : String) (item : Item), c ≠ .update_item_json id item) →
      (runHandler db c).1 = db := by
  intro db c hc
  cases c with
  | update_item_json id item => exact absurd rfl (hc id item)
  | read_item item_id q short =>
    simp only [runHandler]
    cases read_item db item_id q short <;> rfl
  | read_items => rfl
  | create_items item => rfl
  | create_an_item item => rfl
  | create_item_rt item => rfl
  | read_items_rt => rfl
  | update_item item_id item user importance q => rfl
  | root => rfl
  | read_item_q q => rfl
  | read_item_list q => rfl
  | read_items_title q => rfl
  | read_user_item user_id item_id q short => rfl
  | get_model model_name => rfl

/-- Witness for C8: the root handler run on the seeded store. -/
theorem handlers_pure_except_put_id_witness :
    (runHandler fake_items_db .root).1 = fake_items_db :=
  handlers_pure_except_put_id fake_items_db .root
    (fun _ _ h => HandlerCall.noConfusion h)

/-- Claim C9: the boolean coercion of the `short` query parameter (modelled
from the spec) maps every case-insensitive member of
`{"1", "true", "on", "yes"}` to true, every case-insensitive member of
`{"0", "false", "off", "no"}` to false, and rejects every other string. -/
theorem short_coercion_contract :
    ∀ s : String,
      (parseShortBool s = some true ↔ s.toLower ∈ ["1", "true", "on", "yes"]) ∧
      (parseShortBool s = some false ↔ s.toLower ∈ ["0", "false", "off", "no"]) ∧
      (parseShortBool s = Option.none ↔
        s.toLower ∉ ["1", "true", "on", "yes"] ∧
        s.toLower ∉ ["0", "false", "off", "no"]) := by
  intro s
  simp only [parseShortBool, List.mem_cons, List.mem_singleton,
    List.not_mem_nil, or_false]
  split_ifs with h1 h2
  · exact ⟨⟨fun _ => h1, fun _ => rfl⟩,
      ⟨fun h => absurd h (by simp),
       fun hB => absurd hB (trueSetFalseSetDisjoint _ h1)⟩,
      ⟨fun h => absurd h (by simp), fun hA => absurd h1 hA.1⟩⟩
  · exact ⟨⟨fun h => absurd h (by simp), fun hA => absurd hA h1⟩,
      ⟨fun _ => h2, fun _ => rfl⟩,
      ⟨fun h => absurd h (by simp), fun hB => absurd h2 hB.2⟩⟩
  · exact ⟨⟨fun h => absurd h (by simp), fun hA => absurd hA h1⟩,
      ⟨fun h => absurd h (by simp), fun hB => absurd hB h2⟩,
      ⟨fun _ => ⟨h1, h2⟩, fun _ => rfl⟩⟩

/-- Claim C10: whenever the `tax` field is present and equal to 0, the
`POST /items/` handler omits `price_with_tax` from its response: presence
of `tax` is decided by the truthiness test `if item.tax:`, not by a null
check, and `0.0` is falsy. -/
theorem create_items_tax_zero_omits :
    ∀ item : Item, item.tax = some 0 →
      dictGet? (create_items item) "price_with_tax" = Option.none := by
  intro item h
  simp [create_items, h, dictGet?, Item.toDict]

/-- Witness for C10 at a concrete item with `tax = 0`. -/
theorem create_items_tax_zero_omits_witness :
    dictGet? (create_items (Item.mk "Bar" Option.none 10 (some 0)))
      "price_with_tax" = Option.none :=
  create_items_tax_zero_omits (Item.mk "Bar" Option.none 10 (some 0)) rfl

end Tutorial
